import Mathlib

/-!
Shallow embedding of `okta-eventhook-verifier` (Go, `main.go`) for checking
its natural-language specification.

The program is a small HTTP service.  The parts embedded here:

* `verificationHandler` (main.go, lines 113-145): the per-path request
  handler, its `sync.Once`-guarded completion latch and `wg.Done` call.
* the registration loop in `main` (lines 95-99): `strings.Split` of the
  comma-separated path list, one `wg.Add(1)` and one `mux.Handle` per entry.
* the environment-variable override block in `main` (lines 56-71).
* `gracefulShutdown` (lines 148-165) and `shutdownServer` (lines 167-176),
  modelled as the finite list of effects (log lines, graceful-stop calls,
  process exits) produced for an observed sequence of trigger events.
* the exit-code logic of `main` (lines 107-110) and `usage` (lines 31-44).

Concurrency note: `sync.Once.Do` and the `WaitGroup` counter are the only
shared mutable state touched by handlers; both linearize their updates, so
an arbitrary concurrent execution of requests against one handler is
modelled as an arbitrary finite sequence (`runTrace`) of atomic
`serveHTTP` steps.
-/

/-- The header Okta sends the one-time verification token in
(`oktaVerificationHeader`, main.go line 20). -/
def oktaVerificationHeader : String := "x-okta-verification-challenge"

/-- An HTTP response as the handler computes it: status code, the
`Content-Type` header when the handler sets one, and the body it writes
(empty when the handler writes no body). -/
structure HttpResponse where
  status : Nat
  contentType : Option String
  body : String
deriving DecidableEq

/-- An incoming HTTP request, restricted to the fields
`verificationHandler` reads: `r.Method`, `r.URL.Path` and the
verification header value.  Go's `r.Header.Get` returns `""` for an
absent header, so an absent header is modelled as the empty string. -/
structure HttpRequest where
  method : String
  path : String
  verificationHeader : String
deriving DecidableEq

/-- Observable side effects of the program: log lines (`log.Info` /
`log.Error`), stderr prints in `usage`, a call to the server's graceful
stop (`server.Shutdown`) with its grace period in seconds, and a process
exit with its status code. -/
inductive AppEffect where
  | logInfo (msg : String) : AppEffect
  | logError (msg : String) : AppEffect
  | printStderr (msg : String) : AppEffect
  | callShutdown (gracePeriodSeconds : Nat) : AppEffect
  | exitProcess (code : Nat) : AppEffect
deriving DecidableEq

/-- Mutable state shared between one handler's invocations: the
`sync.Once` guard (`fired`) and the `WaitGroup` outstanding counter the
handler decrements through `wg.Done()`.  The counter is the completion
tracker's view; `all-done` fires when it reaches zero. -/
structure HandlerState where
  fired : Bool
  counter : Int
deriving DecidableEq

/-- Outcome of the `fmt.Fprintf(w, "%s", b)` body write in the success
branch (main.go line 133): the write either succeeds or returns an
error. -/
inductive WriteOutcome where
  | ok : WriteOutcome
  | failed : WriteOutcome
deriving DecidableEq

/-- Go's `unicode.IsSpace`: the Unicode `White_Space` property
(U+0009-U+000D, U+0020, U+0085, U+00A0, U+1680, U+2000-U+200A, U+2028,
U+2029, U+202F, U+205F, U+3000). -/
def goIsSpace (c : Char) : Bool :=
  c = '\x09' || c = '\x0a' || c = '\x0b' || c = '\x0c' || c = '\x0d' ||
  c = ' ' || c = '\x85' || c = '\xa0' || c = '\u1680' ||
  ('\u2000' ≤ c && c ≤ '\u200a') ||
  c = '\u2028' || c = '\u2029' || c = '\u202f' || c = '\u205f' || c = '\u3000'

/-- Go's `strings.TrimSpace`: drop leading and trailing white space. -/
def trimSpace (s : String) : String :=
  String.mk (((s.data.dropWhile goIsSpace).reverse.dropWhile goIsSpace).reverse)

/-- The 400 response: `w.WriteHeader(http.StatusBadRequest)` with no
body and no `Content-Type` set by the handler. -/
def badRequest : HttpResponse := ⟨400, none, ""⟩

/-- The success body built at main.go line 129: the raw header value
spliced verbatim between the literal braces and quotes, with no JSON
escaping. -/
def verificationBody (token : String) : String :=
  "\x7b\"verification\" : \"" ++ token ++ "\"\x7d"

/-- One invocation of the closure returned by `verificationHandler`
(main.go lines 115-144), as a function of the process-wide
`exitWhenDone` flag, the handler's shared state, the request, and the
outcome of the body write.  Returns the new shared state, the response,
and the effects (log lines) emitted. -/
def serveHTTP (exitWhenDone : Bool) (s : HandlerState) (r : HttpRequest)
    (w : WriteOutcome) : HandlerState × HttpResponse × List AppEffect :=
  if r.method ≠ "GET" then
    (s, badRequest,
      [AppEffect.logError
        ("invalid verification request received method=" ++ r.method ++
          " path=" ++ r.path)])
  else if trimSpace r.verificationHeader = "" then
    (s, badRequest,
      [AppEffect.logError
        ("verification header missing method=" ++ r.method ++
          " path=" ++ r.path)])
  else
    let resp : HttpResponse :=
      ⟨200, some "application/json", verificationBody r.verificationHeader⟩
    match w with
    | WriteOutcome.failed =>
      (s, resp,
        [AppEffect.logError
          ("could not write one-time verification response path=" ++ r.path)])
    | WriteOutcome.ok =>
      let acts :=
        [AppEffect.logInfo
          ("one-time verification response sent path=" ++ r.path)]
      if exitWhenDone then
        if s.fired then (s, resp, acts)
        else (⟨true, s.counter - 1⟩, resp, acts)
      else (s, resp, acts)

/-- The response component of the handler as a standalone function of
the only request fields the responses of `serveHTTP` are built from:
the method and the verification header value. -/
def handlerResponse (method hdr : String) : HttpResponse :=
  if method ≠ "GET" then badRequest
  else if trimSpace hdr = "" then badRequest
  else ⟨200, some "application/json", verificationBody hdr⟩

/-- Sequential composition of handler invocations: any linearization of
a set of (possibly concurrent) requests served by one handler. -/
def runTrace (exitWhenDone : Bool) (s : HandlerState) :
    List (HttpRequest × WriteOutcome) → HandlerState
  | [] => s
  | rw :: rest => runTrace exitWhenDone (serveHTTP exitWhenDone s rw.1 rw.2).1 rest

/-- Result of the registration loop in `main` (lines 95-99): either it
finishes with the final `WaitGroup` counter value, or `mux.Handle`
panics (on an empty pattern or a pattern registered twice), recording
the counter value at the moment of the panic. -/
inductive RegResult where
  | ok (counter : Nat) : RegResult
  | panicked (counter : Nat) : RegResult
deriving DecidableEq

/-- The body of the registration loop: for each entry of the split path
list, `wg.Add(1)` runs first, then `mux.Handle(path, ...)`, which
panics when the pattern is `""` or was already registered
(`http.ServeMux.Handle`, Go 1.21).  `seen` is the set of patterns
already registered, `counter` the `WaitGroup` counter so far. -/
def registerLoop : List String → List String → Nat → RegResult
  | [], _, counter => RegResult.ok counter
  | p :: rest, seen, counter =>
    if p = "" then RegResult.panicked (counter + 1)
    else if seen.contains p then RegResult.panicked (counter + 1)
    else registerLoop rest (p :: seen) (counter + 1)

/-- Accumulator for `goSplitComma`: characters of the current field are
collected in reverse in `acc`. -/
def splitCommaAux : List Char → List Char → List String
  | [], acc => [String.mk acc.reverse]
  | c :: rest, acc =>
    if c = ',' then String.mk acc.reverse :: splitCommaAux rest []
    else splitCommaAux rest (c :: acc)

/-- Go's `strings.Split(s, ",")`: the fields around every comma, so
`"" ↦ [""]`, `"a,b" ↦ ["a", "b"]`, `"," ↦ ["", ""]`. -/
def goSplitComma (s : String) : List String := splitCommaAux s.data []

/-- The whole registration phase: `strings.Split(eventHookPaths, ",")`,
then the loop starting from an empty mux and a zero counter. -/
def registerAll (eventHookPaths : String) : RegResult :=
  registerLoop (goSplitComma eventHookPaths) [] 0

/-- The four configuration values of the program, after flag parsing
and environment overrides. -/
structure AppConfig where
  address : String
  eventHookPaths : String
  exitWhenDone : Bool
  timeOutHours : Int
deriving DecidableEq

/-- The four environment variables consulted in `main` (lines 56-71);
`os.Getenv` returns `""` when a variable is unset, so an unset variable
is modelled as the empty string. -/
structure EnvVars where
  listenAddress : String
  eventHookPaths : String
  exitWhenDone : String
  timeOutHours : String
deriving DecidableEq

/-- Go's `strings.EqualFold`, restricted to simple case folding via
lower-casing both character sequences (exact for the ASCII constant the
program compares against, namely `"true"`). -/
def equalFold (a b : String) : Bool :=
  a.data.map Char.toLower == b.data.map Char.toLower

/-- Digit-string accumulator used by `atoi`. -/
def digitsValAux : List Char → Nat → Option Nat
  | [], acc => some acc
  | c :: rest, acc =>
    if c.isDigit then digitsValAux rest (acc * 10 + (c.toNat - 48)) else none

/-- Largest value of Go's platform `int` (the binary is built for a
64-bit platform, see the repository's Dockerfile): `2^63 - 1`. -/
def maxGoInt : Int := 9223372036854775807

/-- Range check of `strconv.ParseInt(s, 10, 0)`: a parsed magnitude is
accepted when the signed value fits the platform `int`, so magnitudes
up to `2^63 - 1` for non-negative values and up to `2^63` for negative
ones; outside that Go returns `ErrRange` (a non-nil error). -/
def goIntOfMag (negative : Bool) (n : Nat) : Option Int :=
  if negative then
    (if (n : Int) ≤ maxGoInt + 1 then some (-(n : Int)) else none)
  else
    (if (n : Int) ≤ maxGoInt then some (n : Int) else none)

/-- Go's `strconv.Atoi` (base 10, platform `int`): optional sign
followed by at least one digit, value within the platform `int` range;
`none` (a non-nil error in Go) on any other input, including a
syntactically valid integer that overflows the platform `int`. -/
def atoi (s : String) : Option Int :=
  match s.data with
  | [] => none
  | '-' :: [] => none
  | '-' :: rest => (digitsValAux rest 0).bind (goIntOfMag true)
  | '+' :: [] => none
  | '+' :: rest => (digitsValAux rest 0).bind (goIntOfMag false)
  | cs => (digitsValAux cs 0).bind (goIntOfMag false)

/-- `if env := os.Getenv(...); env != "" { var = env }` for the two
string options (lines 56-61). -/
def overrideString (cur : String) (env : String) : String :=
  if env ≠ "" then env else cur

/-- Lines 62-66: a non-empty `EXIT_WHEN_DONE` sets the flag to `true`
when it case-insensitively equals `"true"`, and otherwise leaves the
flag value untouched (there is no branch setting it to `false`). -/
def overrideExitWhenDone (cur : Bool) (env : String) : Bool :=
  if env ≠ "" then (if equalFold env "true" then true else cur) else cur

/-- Lines 67-71: a non-empty `TIME_OUT_HOURS` replaces the flag value
only when `strconv.Atoi` succeeds on it. -/
def overrideTimeOut (cur : Int) (env : String) : Int :=
  if env ≠ "" then
    (match atoi env with
     | some v => v
     | none => cur)
  else cur

/-- The environment-override block of `main` (lines 56-71): each of the
four if-blocks touches exactly one of the four variables, so the block
is their independent composition. -/
def applyEnv (flags : AppConfig) (env : EnvVars) : AppConfig :=
  ⟨overrideString flags.address env.listenAddress,
   overrideString flags.eventHookPaths env.eventHookPaths,
   overrideExitWhenDone flags.exitWhenDone env.exitWhenDone,
   overrideTimeOut flags.timeOutHours env.timeOutHours⟩

/-- The values baked into the flag definitions (lines 47-50). -/
def defaultFlags : AppConfig := ⟨":9000", "/", true, 0⟩

/-- The three trigger events `gracefulShutdown` selects over: an
operator signal (`SIGINT`/`SIGTERM` on `stop`), the all-verified event
(`done` closed), and the deadline (`ctx.Done()` when a positive
timeout was configured). -/
inductive Trigger where
  | operatorSignal : Trigger
  | allVerified : Trigger
  | deadline : Trigger
deriving DecidableEq

/-- The log line each `select` case emits (lines 154-162). -/
def triggerLogMsg : Trigger → String
  | Trigger.operatorSignal => "received stop signal"
  | Trigger.allVerified => "all event hooks are verified"
  | Trigger.deadline => "timed out"

/-- `shutdownServer` (lines 167-176): builds a context with a 30-second
timeout, logs, calls `server.Shutdown` with that grace period, and on
failure only logs the error — there is no exit or panic on any path.
`shutdownFails` is the outcome of the `server.Shutdown` call. -/
def shutdownServerEffects (shutdownFails : Bool) : List AppEffect :=
  [AppEffect.logInfo "shutting down server...", AppEffect.callShutdown 30] ++
  (if shutdownFails then
    [AppEffect.logError "failed to shutdown http server"]
  else [])

/-- `gracefulShutdown` (lines 148-165): an unconditional `for` loop
around a three-way `select`; every observed trigger event runs its case,
which logs and then calls `shutdownServer`.  The loop never leaves this
behaviour, so its effects on a finite observed event sequence (each
event paired with the outcome of that iteration's `server.Shutdown`
call) are the concatenation of one log line plus one `shutdownServer`
run per event. -/
def gracefulShutdownEffects : List (Trigger × Bool) → List AppEffect
  | [] => []
  | tb :: rest =>
    (AppEffect.logInfo (triggerLogMsg tb.1) :: shutdownServerEffects tb.2) ++
      gracefulShutdownEffects rest

/-- Number of graceful-stop invocations (`server.Shutdown` calls) in an
effect list. -/
def countShutdownCalls : List AppEffect → Nat
  | [] => 0
  | AppEffect.callShutdown _ :: rest => 1 + countShutdownCalls rest
  | _ :: rest => countShutdownCalls rest

/-- How `server.ListenAndServe()` returned: `http.ErrServerClosed`
after a graceful `Shutdown`, or any other (bind/start) error. -/
inductive ServeResult where
  | serverClosed : ServeResult
  | bindError : ServeResult
deriving DecidableEq

/-- The tail of `main` (lines 107-110): on a bind/start error the error
is logged and the process exits 1; on `http.ErrServerClosed` `main`
returns normally and the process exits 0. -/
def mainServeEffects : ServeResult → List AppEffect
  | ServeResult.bindError =>
    [AppEffect.logError "unable to start server", AppEffect.exitProcess 1]
  | ServeResult.serverClosed => [AppEffect.exitProcess 0]

/-- `usage` (lines 31-44): prints the usage text to stderr and calls
`os.Exit(2)`; it is installed as `flag.Usage`, so it runs on invalid
configuration flags. -/
def usageEffects : List AppEffect :=
  [AppEffect.printStderr "NAME:", AppEffect.printStderr "DESCRIPTION:",
   AppEffect.printStderr "OPTIONS:", AppEffect.exitProcess 2]

/-- The process exit code as a function of whether flag parsing
succeeded and how the server returned. -/
def processExitCode (flagsOk : Bool) (r : ServeResult) : Nat :=
  if flagsOk = false then 2
  else
    match r with
    | ServeResult.bindError => 1
    | ServeResult.serverClosed => 0


theorem serveHTTP_response_eq (e : Bool) (s : HandlerState) (r : HttpRequest)
    (w : WriteOutcome) :
    (serveHTTP e s r w).2.1 = handlerResponse r.method r.verificationHeader := by
  unfold serveHTTP handlerResponse
  by_cases hm : r.method = "GET" <;>
    by_cases hh : trimSpace r.verificationHeader = "" <;>
      cases w <;> cases e <;> cases hf : s.fired <;> simp [hm, hh, hf]

theorem serveHTTP_fst_cases (e : Bool) (s : HandlerState) (r : HttpRequest)
    (w : WriteOutcome) :
    (serveHTTP e s r w).1 = s ∨
      (s.fired = false ∧ (serveHTTP e s r w).1 = ⟨true, s.counter - 1⟩) := by
  unfold serveHTTP
  by_cases hm : r.method = "GET" <;>
    by_cases hh : trimSpace r.verificationHeader = "" <;>
      cases w <;> cases e <;> cases hf : s.fired <;> simp [hm, hh, hf]

theorem serveHTTP_fired (e : Bool) (s : HandlerState) (r : HttpRequest)
    (w : WriteOutcome) (h : s.fired = true) : (serveHTTP e s r w).1 = s := by
  rcases serveHTTP_fst_cases e s r w with hc | ⟨hf, _⟩
  · exact hc
  · rw [h] at hf; exact absurd hf (by simp)

theorem runTrace_fired (e : Bool) :
    ∀ (trace : List (HttpRequest × WriteOutcome)) (s : HandlerState),
      s.fired = true → runTrace e s trace = s := by
  intro trace
  induction trace with
  | nil => intro s _; rfl
  | cons rw rest ih =>
    intro s h
    rw [runTrace, serveHTTP_fired e s rw.1 rw.2 h, ih s h]

theorem runTrace_cases (e : Bool) :
    ∀ (trace : List (HttpRequest × WriteOutcome)) (s : HandlerState),
      runTrace e s trace = s ∨
        (s.fired = false ∧ runTrace e s trace = ⟨true, s.counter - 1⟩) := by
  intro trace
  induction trace with
  | nil => intro s; exact Or.inl rfl
  | cons rw rest ih =>
    intro s
    rcases serveHTTP_fst_cases e s rw.1 rw.2 with hc | ⟨hf, hc⟩
    · rw [runTrace, hc]; exact ih s
    · right
      refine ⟨hf, ?_⟩
      rw [runTrace, hc, runTrace_fired e rest ⟨true, s.counter - 1⟩ rfl]

/-- C1: for every GET request whose verification header value is
non-blank after trimming, the handler responds with status 200, header
`Content-Type: application/json`, and body exactly
`\x7b"verification" : "<v>"\x7d` where `<v>` is the raw (untrimmed,
unescaped) header value substituted verbatim into the template with no
JSON escaping. -/
theorem claim1_success_response (e : Bool) (s : HandlerState) (w : WriteOutcome)
    (path hdr : String) (h : trimSpace hdr ≠ "") :
    (serveHTTP e s ⟨"GET", path, hdr⟩ w).2.1 =
      ⟨200, some "application/json",
        "\x7b\"verification\" : \"" ++ hdr ++ "\"\x7d"⟩ := by
  rw [serveHTTP_response_eq]
  unfold handlerResponse
  simp [h, verificationBody]

/-- C1 witness: the literal fixture from the repository's test — a GET
to `/eventhook/test` with token `random-test-shared-key` yields status
200, `application/json`, and the fixture body. -/
theorem claim1_success_response_witness :
    trimSpace "random-test-shared-key" ≠ "" ∧
    (serveHTTP true ⟨false, 1⟩
      ⟨"GET", "/eventhook/test", "random-test-shared-key"⟩ WriteOutcome.ok).2.1 =
      ⟨200, some "application/json",
        "\x7b\"verification\" : \"random-test-shared-key\"\x7d"⟩ :=
  ⟨by decide,
   claim1_success_response true ⟨false, 1⟩ WriteOutcome.ok "/eventhook/test"
     "random-test-shared-key" (by decide)⟩

/-- C2: with exit-when-done enabled, a handler's completion latch has
effect at most once: over any finite sequence of requests served by one
handler (any linearization of concurrent requests — `sync.Once.Do` and
the `WaitGroup` linearize), starting from a fresh (unfired) latch the
tracker counter decreases by at most 1, and once the latch has fired a
further successful verification leaves the handler state (latch and
counter) completely unchanged. -/
theorem claim2_latch_once (s : HandlerState)
    (trace : List (HttpRequest × WriteOutcome)) (_h : s.fired = false) :
    s.counter - (runTrace true s trace).counter ≤ 1 ∧
      (∀ t : HandlerState, t.fired = true →
        ∀ (r : HttpRequest) (w : WriteOutcome), (serveHTTP true t r w).1 = t) := by
  constructor
  · rcases runTrace_cases true trace s with hc | ⟨_, hc⟩
    · rw [hc]; omega
    · rw [hc]; simp
  · intro t ht r w
    exact serveHTTP_fired true t r w ht

/-- C2 witness: two successful verifications of the same path decrement
the counter by at most one unit, and a successful verification against
an already-fired latch leaves the state unchanged. -/
theorem claim2_latch_once_witness :
    (⟨false, 1⟩ : HandlerState).counter -
      (runTrace true ⟨false, 1⟩
        [(⟨"GET", "/eventhook/test", "random-test-shared-key"⟩, WriteOutcome.ok),
         (⟨"GET", "/eventhook/test", "random-test-shared-key"⟩, WriteOutcome.ok)]).counter ≤ 1 ∧
    (serveHTTP true ⟨true, 0⟩
      ⟨"GET", "/eventhook/test", "random-test-shared-key"⟩ WriteOutcome.ok).1 =
      ⟨true, 0⟩ :=
  ⟨(claim2_latch_once ⟨false, 1⟩
      [(⟨"GET", "/eventhook/test", "random-test-shared-key"⟩, WriteOutcome.ok),
       (⟨"GET", "/eventhook/test", "random-test-shared-key"⟩, WriteOutcome.ok)] rfl).1,
   (claim2_latch_once ⟨false, 1⟩ [] rfl).2 ⟨true, 0⟩ rfl
     ⟨"GET", "/eventhook/test", "random-test-shared-key"⟩ WriteOutcome.ok⟩

/-- C4: for every request whose method is not GET, and for every GET
request whose verification header is absent (modelled as `""`) or blank
after trimming, the handler responds 400 with an empty body and does
not touch the completion latch or the tracker counter. -/
theorem claim4_bad_request (e : Bool) (s : HandlerState) (r : HttpRequest)
    (w : WriteOutcome)
    (h : r.method ≠ "GET" ∨ trimSpace r.verificationHeader = "") :
    (serveHTTP e s r w).1 = s ∧ (serveHTTP e s r w).2.1 = badRequest := by
  rcases h with h | h
  · unfold serveHTTP; simp [h]
  · unfold serveHTTP
    by_cases hm : r.method = "GET" <;> simp [h, hm]

/-- C4 witness: a POST with a valid token gets 400, empty body, and an
untouched handler state. -/
theorem claim4_bad_request_witness :
    (serveHTTP true ⟨false, 1⟩
      ⟨"POST", "/eventhook/test", "random-test-shared-key"⟩ WriteOutcome.ok).1 =
      ⟨false, 1⟩ ∧
    (serveHTTP true ⟨false, 1⟩
      ⟨"POST", "/eventhook/test", "random-test-shared-key"⟩ WriteOutcome.ok).2.1 =
      badRequest :=
  claim4_bad_request true ⟨false, 1⟩
    ⟨"POST", "/eventhook/test", "random-test-shared-key"⟩ WriteOutcome.ok
    (Or.inl (by decide))

/-- C6: if writing the success response body fails, the handler logs
the failure and returns; the completion latch is not fired and the
tracker counter is untouched, so the unacknowledged verification does
not count toward completion. -/
theorem claim6_write_error_no_latch (e : Bool) (s : HandlerState) (r : HttpRequest)
    (hm : r.method = "GET") (hh : trimSpace r.verificationHeader ≠ "") :
    (serveHTTP e s r WriteOutcome.failed).1 = s ∧
      (serveHTTP e s r WriteOutcome.failed).2.2 =
        [AppEffect.logError
          ("could not write one-time verification response path=" ++ r.path)] := by
  unfold serveHTTP
  simp [hm, hh]

/-- C6 witness: a valid GET whose body write fails leaves the latch
unfired and the counter at 1, and logs the write failure. -/
theorem claim6_write_error_no_latch_witness :
    (serveHTTP true ⟨false, 1⟩
      ⟨"GET", "/eventhook/test", "random-test-shared-key"⟩ WriteOutcome.failed).1 =
      ⟨false, 1⟩ ∧
    (serveHTTP true ⟨false, 1⟩
      ⟨"GET", "/eventhook/test", "random-test-shared-key"⟩ WriteOutcome.failed).2.2 =
      [AppEffect.logError
        "could not write one-time verification response path=/eventhook/test"] :=
  claim6_write_error_no_latch true ⟨false, 1⟩
    ⟨"GET", "/eventhook/test", "random-test-shared-key"⟩ rfl (by decide)

/-- C10: the handler's response (status, Content-Type, body) is a
deterministic function of only the request method and the verification
header value: the request path, the global exit-when-done flag, the
latch state and the write outcome influence only the state and the
logs, so any two requests agreeing on method and header value receive
identical responses. -/
theorem claim10_response_depends_on_method_header_only
    (e e' : Bool) (s s' : HandlerState) (w w' : WriteOutcome) (r r' : HttpRequest)
    (hm : r.method = r'.method) (hh : r.verificationHeader = r'.verificationHeader) :
    (serveHTTP e s r w).2.1 = (serveHTTP e' s' r' w').2.1 := by
  rw [serveHTTP_response_eq, serveHTTP_response_eq, hm, hh]

/-- C10 witness: two valid requests to different paths, with different
flag, latch state and write outcome, receive the same response. -/
theorem claim10_response_depends_on_method_header_only_witness :
    (serveHTTP true ⟨false, 1⟩
      ⟨"GET", "/eventhook/a", "random-test-shared-key"⟩ WriteOutcome.ok).2.1 =
    (serveHTTP false ⟨true, 0⟩
      ⟨"GET", "/eventhook/b", "random-test-shared-key"⟩ WriteOutcome.failed).2.1 :=
  claim10_response_depends_on_method_header_only true false ⟨false, 1⟩ ⟨true, 0⟩
    WriteOutcome.ok WriteOutcome.failed
    ⟨"GET", "/eventhook/a", "random-test-shared-key"⟩
    ⟨"GET", "/eventhook/b", "random-test-shared-key"⟩ rfl rfl

/-- C3 counterexample: `gracefulShutdown` is an unconditional loop
around the select, so a second trigger event observed after shutdown
has begun produces a second graceful-stop invocation — two observed
trigger events yield two `server.Shutdown` calls, not one. -/
theorem claim3_counterexample :
    countShutdownCalls (gracefulShutdownEffects
      [(Trigger.allVerified, false), (Trigger.operatorSignal, false)]) = 2 ∧
    countShutdownCalls (gracefulShutdownEffects
      [(Trigger.allVerified, false), (Trigger.operatorSignal, false)]) ≠ 1 := by
  decide

/-- C3 amended: the Shutdown Coordinator does not latch: every observed
trigger event — first and subsequent alike — logs its cause and invokes
the graceful-stop operation once more, so the number of graceful-stop
invocations equals the number of observed trigger events (termination
happens exactly once only because the underlying `server.Shutdown` is
idempotent, not because later triggers are ignored). -/
theorem claim3_every_trigger_invokes_stop (events : List (Trigger × Bool)) :
    countShutdownCalls (gracefulShutdownEffects events) = events.length := by
  induction events with
  | nil => rfl
  | cons tb rest ih =>
    obtain ⟨t, b⟩ := tb
    cases b <;>
      simp [gracefulShutdownEffects, shutdownServerEffects, countShutdownCalls, ih,
        List.length_cons] <;> omega

/-- C5 counterexample: with the duplicated path list `"/a,/a"` the
registration phase performs one `wg.Add(1)` per entry and then panics
in `mux.Handle` on the repeated pattern: the counter stands at 2, never
at the distinct-path count 1, so duplicates do not collapse to a single
outstanding unit of work. -/
theorem claim5_counterexample :
    registerAll "/a,/a" = RegResult.panicked 2 ∧
    (goSplitComma "/a,/a").dedup.length = 1 ∧
    registerAll "/a,/a" ≠ RegResult.ok 1 := by
  decide

theorem registerLoop_ok (paths : List String) :
    ∀ (seen : List String) (c : Nat), paths.Nodup →
      (∀ p ∈ paths, p ≠ "" ∧ p ∉ seen) →
      registerLoop paths seen c = RegResult.ok (c + paths.length) := by
  induction paths with
  | nil => intro seen c _ _; simp [registerLoop]
  | cons p rest ih =>
    intro seen c hnd hall
    obtain ⟨hp, hpseen⟩ := hall p (by simp)
    rw [registerLoop, if_neg hp, if_neg (by simpa using hpseen)]
    have hnd' := (List.nodup_cons.mp hnd).2
    have hmem := (List.nodup_cons.mp hnd).1
    have := ih (p :: seen) (c + 1) hnd' (fun q hq => by
      refine ⟨(hall q (List.mem_cons_of_mem p hq)).1, ?_⟩
      intro hqmem
      rcases List.mem_cons.mp hqmem with hqp | hqseen
      · exact hmem (hqp ▸ hq)
      · exact (hall q (List.mem_cons_of_mem p hq)).2 hqseen)
    rw [this, List.length_cons]
    exact congrArg RegResult.ok (by omega)

/-- C5 amended: the tracker is initialized with one unit of work per
entry of the comma-separated list, not per distinct path: when the
entries are pairwise distinct and non-empty the outstanding count
equals the number of entries (which then also equals the number of
distinct paths), but a duplicate entry is counted again before the
duplicate registration makes `mux.Handle` panic — duplicates are never
collapsed. -/
theorem claim5_tracker_count (paths : List String) (hnd : paths.Nodup)
    (hne : "" ∉ paths) :
    registerLoop paths [] 0 = RegResult.ok paths.length := by
  have := registerLoop_ok paths [] 0 hnd (fun p hp => by
    refine ⟨?_, by simp⟩
    intro hp0
    exact hne (hp0 ▸ hp))
  simpa using this

/-- C5 witness: two distinct non-empty paths register successfully and
leave the tracker counting two outstanding units. -/
theorem claim5_tracker_count_witness :
    registerLoop ["/eventhook/test1", "/eventhook/test2"] [] 0 =
      RegResult.ok (["/eventhook/test1", "/eventhook/test2"] : List String).length :=
  claim5_tracker_count ["/eventhook/test1", "/eventhook/test2"] (by decide) (by decide)

/-- C7 counterexample: two non-empty environment values that do not
take precedence over the flag value.  Setting `EXIT_WHEN_DONE` to the
non-empty value `"false"` leaves the flag at its default `true`,
because the override block only ever sets the flag to `true` (when the
variable case-insensitively equals `"true"`) and has no branch
assigning `false`.  And setting `TIME_OUT_HOURS` to the non-empty
integer value `"9223372036854775808"` (`2^63`, one past the largest
platform `int`) leaves the flag value `5` in place, because
`strconv.Atoi` returns a range error and line 68 only overrides when
the error is nil. -/
theorem claim7_counterexample :
    (("false" : String) ≠ "" ∧
      (applyEnv defaultFlags ⟨"", "", "false", ""⟩).exitWhenDone = true) ∧
    (("9223372036854775808" : String) ≠ "" ∧
      (applyEnv ⟨":9000", "/", true, 5⟩
        ⟨"", "", "", "9223372036854775808"⟩).timeOutHours = 5) := by
  decide

theorem equalFold_true_ne_empty (env : String)
    (h : equalFold env "true" = true) : env ≠ "" := by
  intro h0
  rw [h0] at h
  exact absurd h (by decide)

/-- C7 amended: a non-empty environment variable takes precedence over
the command-line flag for the listen address and the event-hook paths
unconditionally; for exit-when-done only by forcing the value `true`
when the variable case-insensitively equals `"true"` (any other value,
including `"false"`, leaves the flag value unchanged); and for the
timeout hours only when the variable parses as an integer representable
in the platform `int` (otherwise — malformed or out of range — the flag
value is kept). -/
theorem claim7_env_overrides (flags : AppConfig) (env : EnvVars) :
    (env.listenAddress ≠ "" → (applyEnv flags env).address = env.listenAddress) ∧
    (env.eventHookPaths ≠ "" →
      (applyEnv flags env).eventHookPaths = env.eventHookPaths) ∧
    (equalFold env.exitWhenDone "true" = true →
      (applyEnv flags env).exitWhenDone = true) ∧
    (equalFold env.exitWhenDone "true" = false →
      (applyEnv flags env).exitWhenDone = flags.exitWhenDone) ∧
    (∀ v : Int, atoi env.timeOutHours = some v →
      (applyEnv flags env).timeOutHours = v) ∧
    (atoi env.timeOutHours = none →
      (applyEnv flags env).timeOutHours = flags.timeOutHours) := by
  refine ⟨?_, ?_, ?_, ?_, ?_, ?_⟩
  · intro h
    simp [applyEnv, overrideString, h]
  · intro h
    simp [applyEnv, overrideString, h]
  · intro h
    simp [applyEnv, overrideExitWhenDone, equalFold_true_ne_empty env.exitWhenDone h, h]
  · intro h
    by_cases h0 : env.exitWhenDone = "" <;>
      simp [applyEnv, overrideExitWhenDone, h0, h]
  · intro v h
    by_cases he : env.timeOutHours = ""
    · rw [he] at h; simp [atoi] at h
    · simp [applyEnv, overrideTimeOut, he, h]
  · intro h
    by_cases he : env.timeOutHours = "" <;>
      simp [applyEnv, overrideTimeOut, he, h]

/-- C7 witness: concrete overrides at work — all four variables set to
usable values replace the flag values, a second environment with
`EXIT_WHEN_DONE=false` and an unparsable `TIME_OUT_HOURS` leaves the
corresponding flag values in place, and an out-of-range
`TIME_OUT_HOURS` is also kept at the flag value. -/
theorem claim7_env_overrides_witness :
    (applyEnv ⟨":9000", "/", false, 5⟩
      ⟨"0.0.0.0:8080", "/a,/b", "TRUE", "3"⟩).address = "0.0.0.0:8080" ∧
    (applyEnv ⟨":9000", "/", false, 5⟩
      ⟨"0.0.0.0:8080", "/a,/b", "TRUE", "3"⟩).eventHookPaths = "/a,/b" ∧
    (applyEnv ⟨":9000", "/", false, 5⟩
      ⟨"0.0.0.0:8080", "/a,/b", "TRUE", "3"⟩).exitWhenDone = true ∧
    (applyEnv ⟨":9000", "/", false, 5⟩
      ⟨"0.0.0.0:8080", "/a,/b", "TRUE", "3"⟩).timeOutHours = 3 ∧
    (applyEnv ⟨":9000", "/", true, 5⟩
      ⟨"", "", "false", "abc"⟩).exitWhenDone = true ∧
    (applyEnv ⟨":9000", "/", true, 5⟩
      ⟨"", "", "false", "abc"⟩).timeOutHours = 5 ∧
    (applyEnv ⟨":9000", "/", true, 5⟩
      ⟨"", "", "", "9223372036854775808"⟩).timeOutHours = 5 :=
  ⟨(claim7_env_overrides ⟨":9000", "/", false, 5⟩
      ⟨"0.0.0.0:8080", "/a,/b", "TRUE", "3"⟩).1 (by decide),
   (claim7_env_overrides ⟨":9000", "/", false, 5⟩
      ⟨"0.0.0.0:8080", "/a,/b", "TRUE", "3"⟩).2.1 (by decide),
   (claim7_env_overrides ⟨":9000", "/", false, 5⟩
      ⟨"0.0.0.0:8080", "/a,/b", "TRUE", "3"⟩).2.2.1 (by decide),
   (claim7_env_overrides ⟨":9000", "/", false, 5⟩
      ⟨"0.0.0.0:8080", "/a,/b", "TRUE", "3"⟩).2.2.2.2.1 3 (by decide),
   (claim7_env_overrides ⟨":9000", "/", true, 5⟩
      ⟨"", "", "false", "abc"⟩).2.2.2.1 (by decide),
   (claim7_env_overrides ⟨":9000", "/", true, 5⟩
      ⟨"", "", "false", "abc"⟩).2.2.2.2.2 (by decide),
   (claim7_env_overrides ⟨":9000", "/", true, 5⟩
      ⟨"", "", "", "9223372036854775808"⟩).2.2.2.2.2 (by decide)⟩

/-- C8: the process exit status is 0 on graceful shutdown (the server
returned `http.ErrServerClosed` and `main` falls off its end), 2 on
invalid configuration usage (`usage` ends in `os.Exit(2)`), and 1 —
after logging the error — when the listener fails to bind or start. -/
theorem claim8_exit_codes :
    processExitCode true ServeResult.serverClosed = 0 ∧
    (∀ r : ServeResult, processExitCode false r = 2) ∧
    usageEffects.getLast? = some (AppEffect.exitProcess 2) ∧
    processExitCode true ServeResult.bindError = 1 ∧
    mainServeEffects ServeResult.bindError =
      [AppEffect.logError "unable to start server", AppEffect.exitProcess 1] ∧
    mainServeEffects ServeResult.serverClosed = [AppEffect.exitProcess 0] := by
  refine ⟨rfl, ?_, rfl, rfl, rfl, rfl⟩
  intro r
  rfl

/-- C9: the graceful-stop operation always passes a grace period of
exactly 30 seconds to `server.Shutdown`, and when the shutdown call
fails the failure is only logged — no path of `shutdownServer` exits
the process or panics. -/
theorem claim9_graceful_stop (shutdownFails : Bool) :
    AppEffect.callShutdown 30 ∈ shutdownServerEffects shutdownFails ∧
    (∀ c : Nat, AppEffect.exitProcess c ∉ shutdownServerEffects shutdownFails) ∧
    (shutdownFails = true →
      AppEffect.logError "failed to shutdown http server" ∈
        shutdownServerEffects shutdownFails) := by
  cases shutdownFails <;> simp [shutdownServerEffects]

/-- C9 witness: a failing shutdown call still used the 30-second grace
period, logged the failure, and did not exit the process. -/
theorem claim9_graceful_stop_witness :
    AppEffect.callShutdown 30 ∈ shutdownServerEffects true ∧
    AppEffect.exitProcess 1 ∉ shutdownServerEffects true ∧
    AppEffect.logError "failed to shutdown http server" ∈
      shutdownServerEffects true :=
  ⟨(claim9_graceful_stop true).1, (claim9_graceful_stop true).2.1 1,
   (claim9_graceful_stop true).2.2 rfl⟩
